import Mathlib

/-!
Verification development for the HomeMonitorV2 ThingSpeak client
(src/ThingSpeak/ThingSpeak.h, src/ThingSpeak/ThingSpeak.cpp) and the
refresh scheduler in the main UI loop (src/main.cpp).

The C++ code is shallowly embedded:
  * the nlohmann JSON payload is modelled by the record shapes the code
    actually reads (a "channel" object with per-field name strings, and a
    "feeds" array of entries carrying `entry_id`, `created_at`,
    `field1`, `field2`); a key that is absent or JSON null is `none`
    (nlohmann `operator[]` materialises absent keys as null, and the code
    compares against `nullptr`);
  * the fixed C arrays of `ThingSpeakFeedData_t` are total maps
    `Nat → _` so that an out-of-bounds store is representable; a ghost
    list records every array index written during a refresh;
  * a C++ exception that escapes (uncaught `std::stof` /
    `nlohmann::json` throws — there is no try/catch anywhere in the
    repository) is `Except.error`, carrying the partially mutated state;
  * `std::chrono` UTC↔civil conversion is embedded with the standard
    proleptic-Gregorian civil-from-days / days-from-civil algorithms;
  * the daylight-saving probe of the current wall clock in
    `GetPstTimeOffset` is a Boolean parameter threaded through the
    functions that call it.
-/

/-! ### Model of `std::stof`

`std::stof` skips leading whitespace, accepts an optional sign and then a
decimal digit string with an optional fractional part, and throws
`std::invalid_argument` when no conversion can be performed (modelled as
`none`).  The hexadecimal / infinity / NaN / exponent forms accepted by
the real `std::stof` are omitted: ThingSpeak field values are plain
decimal strings, and no claim depends on the parsed magnitude, only on
whether the conversion succeeds.  The value is carried as a `Rat`. -/

def digitVal (c : Char) : Nat := c.toNat - 48

def digitsToNat (cs : List Char) : Nat :=
  cs.foldl (fun a c => a * 10 + digitVal c) 0

def stofCore (cs : List Char) : Option Rat :=
  let cs := cs.dropWhile (fun c => c.isWhitespace)
  let signed : Bool × List Char :=
    match cs with
    | '-' :: t => (true, t)
    | '+' :: t => (false, t)
    | _ => (false, cs)
  let intPart := signed.2.takeWhile (fun c => c.isDigit)
  let afterInt := signed.2.dropWhile (fun c => c.isDigit)
  let fracPart :=
    match afterInt with
    | '.' :: t => t.takeWhile (fun c => c.isDigit)
    | _ => []
  if intPart.isEmpty && fracPart.isEmpty then none
  else
    let mag : Rat :=
      (digitsToNat intPart : Rat) + (digitsToNat fracPart : Rat) / ((10 : Rat) ^ fracPart.length)
    some (if signed.1 then -mag else mag)

def stof (s : String) : Option Rat := stofCore s.toList

/-! ### Civil calendar arithmetic

`ConvertUtcDateTimeToPstDateTime` goes through
`std::chrono::sys_time<seconds>` (seconds since the Unix epoch),
`to_time_t` and `gmtime`.  The proleptic-Gregorian days↔civil maps below
are the standard algorithms these library facilities implement. -/

structure DateTime where
  year : Int
  month : Nat
  day : Nat
  hour : Nat
  minute : Nat
  second : Nat

def isLeapYear (y : Int) : Bool :=
  (y % 4 = 0 && y % 100 ≠ 0) || y % 400 = 0

def daysInMonth (y : Int) (m : Nat) : Nat :=
  if m = 2 then (if isLeapYear y then 29 else 28)
  else if m = 4 ∨ m = 6 ∨ m = 9 ∨ m = 11 then 30
  else 31

def daysFromCivil (y0 : Int) (m d : Nat) : Int :=
  let y := if m ≤ 2 then y0 - 1 else y0
  let era := Int.fdiv y 400
  let yoe := (y - era * 400).toNat
  let mp := (m + 9) % 12
  let doy := (153 * mp + 2) / 5 + d - 1
  let doe := yoe * 365 + yoe / 4 - yoe / 100 + doy
  era * 146097 + (doe : Int) - 719468

def civilFromDays (z0 : Int) : Int × Nat × Nat :=
  let z := z0 + 719468
  let era := Int.fdiv z 146097
  let doe := (z - era * 146097).toNat
  let yoe := (doe - doe / 1460 + doe / 36524 - doe / 146096) / 365
  let y : Int := (yoe : Int) + era * 400
  let doy := doe - (365 * yoe + yoe / 4 - yoe / 100)
  let mp := (5 * doy + 2) / 153
  let d := doy - (153 * mp + 2) / 5 + 1
  let m := if mp < 10 then mp + 3 else mp - 9
  (if m ≤ 2 then y + 1 else y, m, d)

def dateTimeToEpochSecs (dt : DateTime) : Int :=
  daysFromCivil dt.year dt.month dt.day * 86400 +
    (dt.hour * 3600 + dt.minute * 60 + dt.second : Nat)

def epochSecsToDateTime (t : Int) : DateTime :=
  let days := Int.fdiv t 86400
  let sod := (t - days * 86400).toNat
  let c := civilFromDays days
  { year := c.1, month := c.2.1, day := c.2.2,
    hour := sod / 3600, minute := sod % 3600 / 60, second := sod % 60 }

/-! ### Parsing and formatting of timestamp strings

`std::chrono::parse("%Y-%m-%dT%H:%M:%SZ", ...)` is modelled on the
canonical fixed-width form ThingSpeak emits ("YYYY-MM-DDTHH:MM:SSZ");
field values are range-checked the way `from_stream` rejects an invalid
calendar combination, and trailing characters after the 'Z' are ignored
exactly as stream extraction leaves them unread. -/

def read2 : List Char → Option (Nat × List Char)
  | a :: b :: rest =>
    if a.isDigit && b.isDigit then some (digitVal a * 10 + digitVal b, rest) else none
  | _ => none

def read4 : List Char → Option (Nat × List Char)
  | a :: b :: c :: d :: rest =>
    if a.isDigit && b.isDigit && c.isDigit && d.isDigit then
      some (((digitVal a * 10 + digitVal b) * 10 + digitVal c) * 10 + digitVal d, rest)
    else none
  | _ => none

def expectChar (c : Char) : List Char → Option (List Char)
  | x :: rest => if x = c then some rest else none
  | [] => none

def parseUtcDateTime (s : String) : Option DateTime :=
  match read4 s.toList with
  | none => none
  | some (y, r1) =>
    match expectChar '-' r1 with
    | none => none
    | some r2 =>
      match read2 r2 with
      | none => none
      | some (mo, r3) =>
        match expectChar '-' r3 with
        | none => none
        | some r4 =>
          match read2 r4 with
          | none => none
          | some (d, r5) =>
            match expectChar 'T' r5 with
            | none => none
            | some r6 =>
              match read2 r6 with
              | none => none
              | some (h, r7) =>
                match expectChar ':' r7 with
                | none => none
                | some r8 =>
                  match read2 r8 with
                  | none => none
                  | some (mi, r9) =>
                    match expectChar ':' r9 with
                    | none => none
                    | some r10 =>
                      match read2 r10 with
                      | none => none
                      | some (sec, r11) =>
                        match expectChar 'Z' r11 with
                        | none => none
                        | some _ =>
                          if 1 ≤ mo ∧ mo ≤ 12 ∧ 1 ≤ d ∧ d ≤ daysInMonth (y : Int) mo ∧
                             h ≤ 23 ∧ mi ≤ 59 ∧ sec ≤ 59 then
                            some { year := (y : Int), month := mo, day := d,
                                   hour := h, minute := mi, second := sec }
                          else none

def pad2 (n : Nat) : String :=
  if n < 10 then "0" ++ toString n else toString n

def formatPstDateTime (dt : DateTime) : String :=
  toString dt.year ++ "-" ++ pad2 dt.month ++ "-" ++ pad2 dt.day ++ " " ++
    pad2 dt.hour ++ ":" ++ pad2 dt.minute ++ ":" ++ pad2 dt.second

/-- Model of `ThingSpeak::GetPstTimeOffset`.  The C++ function asks the
current local time zone whether daylight saving is in effect *now*
(`local_time.get_info().save != 0`); that probe of the wall clock is the
Boolean parameter. -/
def GetPstTimeOffset (daylightSavings : Bool) : Int :=
  let pstOffset : Int := -8
  if daylightSavings then pstOffset + 1 else pstOffset

/-- Model of `ThingSpeak::ConvertUtcDateTimeToPstDateTime`: parse the UTC
string as `sys_time<seconds>`, add `GetPstTimeOffset` hours, and format
the shifted time with `gmtime` / `put_time("%Y-%m-%d %H:%M:%S")`.  When
`chrono::parse` fails the C++ leaves the default-constructed
`sys_time` (the epoch), so the `none` branch formats the epoch plus the
offset. -/
def ConvertUtcDateTimeToPstDateTime (utcDateTimeStr : String) (daylightSavings : Bool) : String :=
  match parseUtcDateTime utcDateTimeStr with
  | none => formatPstDateTime (epochSecsToDateTime (GetPstTimeOffset daylightSavings * 3600))
  | some dt =>
    let pstOffset := GetPstTimeOffset daylightSavings
    let pstTime := dateTimeToEpochSecs dt + pstOffset * 3600
    formatPstDateTime (epochSecsToDateTime pstTime)

/-! ### The JSON payload model

Only the shapes `GetFieldData` / `GetChannelData` actually touch are
modelled.  `none` stands for a key that is absent or JSON null (nlohmann
`operator[]` materialises an absent key as null and the code tests
`== nullptr`); assigning such a null to a `std::string` / `int` throws
`nlohmann::json::type_error`, modelled as `Except.error`. -/

structure ChannelObj where
  field1 : Option String
  field2 : Option String

structure Feed where
  entry_id : Option Int
  created_at : Option String
  field1 : Option String
  field2 : Option String

structure PayloadJson where
  channel : Option ChannelObj
  feeds : Option (List Feed)

/-- A response body: either `json::parse` throws (`malformed`) or it
yields a value with the given shape. -/
inductive HttpBody
  | malformed
  | json (p : PayloadJson)

structure HttpResponse where
  status : Int
  body : HttpBody

/-! ### `ThingSpeakFeedData_t` and the `ThingSpeak` object

The fixed arrays `entryId[100]` / `xAxisData[100]` / `yAxisData[100]` /
`timestamp[100]` are embedded as total maps `Nat → _` so that the store
`arr[i] = v` is representable at any index; boundedness of the indices
actually written is a property to be proved (or refuted), not built in.
`xAxisData` stores the loop counter `i` (a `float` in C++), `yAxisData`
the `std::stof` result. -/

def MAX_THINGSPEAK_REQUEST_SIZE : Nat := 100

structure ThingSpeakFeedData_t where
  fieldName : String
  numDataPoints : Nat
  entryId : Nat → Int
  xAxisData : Nat → Nat
  yAxisData : Nat → Rat
  timestamp : Nat → String

structure ThingSpeak where
  objectName : String
  thingSpeakKey : String
  thingSpeakChannel : String
  temperatureData : ThingSpeakFeedData_t
  humidityData : ThingSpeakFeedData_t

def arrWrite {α : Type} (f : Nat → α) (i : Nat) (v : α) : Nat → α :=
  fun j => if j = i then v else f j

/-- Model of `ThingSpeak::BuildThingSpeakHttpGetUrl`. -/
def BuildThingSpeakHttpGetUrl (ts : ThingSpeak) (numEntries : Nat) : String :=
  "https://api.thingspeak.com/channels/" ++ ts.thingSpeakChannel ++
    "/feeds.json?api_key=" ++ ts.thingSpeakKey ++ "&results=" ++ toString numEntries

/-! ### The body of the `for (auto& feed : thingSpeakData["feeds"])` loop
of `GetFieldData`, one feed entry at a time.

The C++ statement order is kept exactly: read `i`, assign `fieldName`
from the channel object (throws on null), store `entry_id` (throws on
null), store `created_at`, store `xAxisData[i] = i`, store
`yAxisData[i] = std::stof(field)` (throws on a non-numeric string), then
increment the count; `continue` on a null field skips the *rest of the
loop body* — in particular a null temperature skips the humidity block
of the same entry.  `Except.error` carries the state as mutated up to
the throw; the ghost `List Nat` accumulates every array index written. -/

def processEntry (chT chH : Option String) (f : Feed)
    (tD hD : ThingSpeakFeedData_t) (w : List Nat) :
    Except (ThingSpeakFeedData_t × ThingSpeakFeedData_t × List Nat)
           (ThingSpeakFeedData_t × ThingSpeakFeedData_t × List Nat) :=
  match f.field1 with
  | none => .ok (tD, hD, w)
  | some v1 =>
    let i := tD.numDataPoints
    match chT with
    | none => .error (tD, hD, w)
    | some nmT =>
      let tD := { tD with fieldName := nmT }
      match f.entry_id with
      | none => .error (tD, hD, w)
      | some eid =>
        let tD := { tD with entryId := arrWrite tD.entryId i eid }
        let w := w ++ [i]
        match f.created_at with
        | none => .error (tD, hD, w)
        | some ca =>
          let tD := { tD with timestamp := arrWrite tD.timestamp i ca }
          let tD := { tD with xAxisData := arrWrite tD.xAxisData i i }
          let w := w ++ [i, i]
          match stof v1 with
          | none => .error (tD, hD, w)
          | some y1 =>
            let tD := { tD with yAxisData := arrWrite tD.yAxisData i y1 }
            let w := w ++ [i]
            let tD := { tD with numDataPoints := i + 1 }
            match f.field2 with
            | none => .ok (tD, hD, w)
            | some v2 =>
              let j := hD.numDataPoints
              match chH with
              | none => .error (tD, hD, w)
              | some nmH =>
                let hD := { hD with fieldName := nmH }
                match f.entry_id with
                | none => .error (tD, hD, w)
                | some eid2 =>
                  let hD := { hD with entryId := arrWrite hD.entryId j eid2 }
                  let w := w ++ [j]
                  match f.created_at with
                  | none => .error (tD, hD, w)
                  | some ca2 =>
                    let hD := { hD with timestamp := arrWrite hD.timestamp j ca2 }
                    let hD := { hD with xAxisData := arrWrite hD.xAxisData j j }
                    let w := w ++ [j, j]
                    match stof v2 with
                    | none => .error (tD, hD, w)
                    | some y2 =>
                      let hD := { hD with yAxisData := arrWrite hD.yAxisData j y2 }
                      let w := w ++ [j]
                      let hD := { hD with numDataPoints := j + 1 }
                      .ok (tD, hD, w)

def processFeeds (chT chH : Option String) :
    List Feed → ThingSpeakFeedData_t → ThingSpeakFeedData_t → List Nat →
    Except (ThingSpeakFeedData_t × ThingSpeakFeedData_t × List Nat)
           (ThingSpeakFeedData_t × ThingSpeakFeedData_t × List Nat)
  | [], tD, hD, w => .ok (tD, hD, w)
  | f :: rest, tD, hD, w =>
    match processEntry chT chH f tD hD w with
    | .ok (a, b, c) => processFeeds chT chH rest a b c
    | .error e => .error e

/-! ### `GetChannelData` -/

/-- Diagnostic output of `GetChannelData`: the success line printed to
`std::cout`, or the `[ERROR] Couldn't GET ... Return code: ...` line
printed to `std::cerr` carrying the HTTP status. -/
inductive LogMsg
  | success (url : String)
  | httpError (url : String) (status : Int)

/-- Result of `GetChannelData`: the NULL json returned after a non-200
status, the parsed payload with timestamps already rewritten, or an
exception escaping (`json::parse` throw, or a null `created_at` fed to
`ConvertUtcDateTimeToPstDateTime`). -/
inductive ChanResult
  | null
  | payload (p : PayloadJson)
  | exn

/-- The timestamp-rewriting loop of `GetChannelData`:
`feed["created_at"] = ConvertUtcDateTimeToPstDateTime(feed["created_at"])`
for every feed; a null `created_at` throws when converted to
`std::string` (`none`). -/
def convertFeeds (ds : Bool) : List Feed → Option (List Feed)
  | [] => some []
  | f :: rest =>
    match f.created_at with
    | none => none
    | some ca =>
      match convertFeeds ds rest with
      | none => none
      | some rest' =>
        some ({ f with created_at := some (ConvertUtcDateTimeToPstDateTime ca ds) } :: rest')

/-- Model of `ThingSpeak::GetChannelData`.  Success is the exact
comparison `result.status_code == 200` (`HttpStatusCode::OK`); any other
status logs the error line with the status code and returns the NULL
json.  On 200 the body is parsed (`malformed` throws) and every feed's
`created_at` is rewritten; a json whose top level lacks "feeds" iterates
zero times (nlohmann iteration over the materialised null member is
empty) and is returned as-is. -/
def GetChannelData (ts : ThingSpeak) (numEntries : Nat) (resp : HttpResponse)
    (ds : Bool) : ChanResult × List LogMsg :=
  let url := BuildThingSpeakHttpGetUrl ts numEntries
  if resp.status = 200 then
    match resp.body with
    | .malformed => (.exn, [.success url])
    | .json p =>
      match p.feeds with
      | none => (.payload p, [.success url])
      | some l =>
        match convertFeeds ds l with
        | none => (.exn, [.success url])
        | some l' => (.payload { p with feeds := some l' }, [.success url])
  else
    (.null, [.httpError url resp.status])

/-! ### `GetFieldData` -/

/-- Model of `ThingSpeak::GetFieldData`, instrumented with the ghost
list of array indices written.  Mirrors the C++: fetch
`GetChannelData(MAX_THINGSPEAK_REQUEST_SIZE)`; on NULL return -1; else
zero both `numDataPoints`, run the feed loop (field names come from
`thingSpeakData["channel"]["field1"/"field2"]`, null when "channel" or
the name is absent), and return 0.  `Except.error` is an uncaught C++
exception escaping `GetFieldData` with the object as mutated so far. -/
def GetFieldDataW (ts : ThingSpeak) (resp : HttpResponse) (ds : Bool) :
    ThingSpeak × List Nat × Except Unit Int :=
  match GetChannelData ts MAX_THINGSPEAK_REQUEST_SIZE resp ds with
  | (.null, _) => (ts, [], .ok (-1))
  | (.exn, _) => (ts, [], .error ())
  | (.payload p, _) =>
    let chT := p.channel.bind ChannelObj.field1
    let chH := p.channel.bind ChannelObj.field2
    let tD0 := { ts.temperatureData with numDataPoints := 0 }
    let hD0 := { ts.humidityData with numDataPoints := 0 }
    let feeds := match p.feeds with | none => [] | some l => l
    match processFeeds chT chH feeds tD0 hD0 [] with
    | .ok (tD, hD, w) =>
      ({ ts with temperatureData := tD, humidityData := hD }, w, .ok 0)
    | .error (tD, hD, w) =>
      ({ ts with temperatureData := tD, humidityData := hD }, w, .error ())

/-- `GetFieldData` proper: the instrumented run with the ghost write log
dropped. -/
def GetFieldData (ts : ThingSpeak) (resp : HttpResponse) (ds : Bool) :
    ThingSpeak × Except Unit Int :=
  ((GetFieldDataW ts resp ds).1, (GetFieldDataW ts resp ds).2.2)

/-! ### The refresh scheduler of the main UI loop (src/main.cpp)

Per frame, `HomeMonitorCreateViewerPropertiesWindow` runs first: the
"Refresh Data" button calls `GetFieldData` and touches nothing else.
Then the periodic check
`if (steady_clock::now() > pollingDelay) { ...GetFieldData...;
pollingDelay = steady_clock::now() + minutes(5); }`.
Time is `Int` seconds on the steady clock; `fetchElapsed` is the time
the blocking fetch takes, so the second `now()` reads
`now + fetchElapsed`. -/

def POLLING_INTERVAL_SECS : Int := 300

structure SchedState where
  pollingDelay : Int

/-- One iteration of the render loop, restricted to the refresh logic:
returns the new scheduler state and the number of `GetFieldData` calls
the frame triggered (manual button first, then the periodic check). -/
def frameStep (st : SchedState) (buttonPressed : Bool) (now fetchElapsed : Int) :
    SchedState × Nat :=
  let manualCalls := if buttonPressed then 1 else 0
  if now > st.pollingDelay then
    ({ pollingDelay := now + fetchElapsed + POLLING_INTERVAL_SECS }, manualCalls + 1)
  else
    (st, manualCalls)

/-! ### Well-formedness predicates on feed entries -/

/-- A feed entry on which the whole loop body of `GetFieldData` runs
without throwing and without skipping: `entry_id` and `created_at`
present, both field values present and numerically coercible. -/
def entryComplete (f : Feed) : Bool :=
  f.entry_id.isSome && f.created_at.isSome &&
  (match f.field1 with | some v => (stof v).isSome | none => false) &&
  (match f.field2 with | some v => (stof v).isSome | none => false)

/-- A feed entry that the loop processes without throwing, fields being
allowed to be null: a null `field1` skips the entry, otherwise the entry
must be fully readable and a present `field2` must also coerce. -/
def entryOk2 (f : Feed) : Bool :=
  f.created_at.isSome &&
  (match f.field1 with
   | none => true
   | some v1 =>
     f.entry_id.isSome && (stof v1).isSome &&
       (match f.field2 with | none => true | some v2 => (stof v2).isSome))

/-- The effect of the timestamp-rewriting loop on one feed whose
`created_at` is present. -/
def convFeed (ds : Bool) (f : Feed) : Feed :=
  { f with created_at := f.created_at.map (fun ca => ConvertUtcDateTimeToPstDateTime ca ds) }

theorem convertFeeds_eq_map (ds : Bool) :
    ∀ l : List Feed, l.all (fun f => f.created_at.isSome) = true →
      convertFeeds ds l = some (l.map (convFeed ds)) := by
  intro l
  induction l with
  | nil => intro _; rfl
  | cons f rest ih =>
    intro h
    rw [List.all_cons, Bool.and_eq_true] at h
    rcases f with ⟨eid, ca, f1, f2⟩
    cases ca with
    | none => simp at h
    | some ca =>
      simp only [convertFeeds, ih h.2, List.map_cons, convFeed, Option.map_some']

theorem entryComplete_convFeed (ds : Bool) (f : Feed) :
    entryComplete (convFeed ds f) = entryComplete f := by
  rcases f with ⟨eid, ca, f1, f2⟩
  cases ca <;> simp [convFeed, entryComplete]

theorem entryOk2_convFeed (ds : Bool) (f : Feed) :
    entryOk2 (convFeed ds f) = entryOk2 f := by
  rcases f with ⟨eid, ca, f1, f2⟩
  cases ca <;> simp [convFeed, entryOk2]

theorem all_created_at_of_complete :
    ∀ l : List Feed, l.all entryComplete = true →
      l.all (fun f => f.created_at.isSome) = true := by
  intro l
  induction l with
  | nil => intro _; rfl
  | cons f rest ih =>
    intro h
    rw [List.all_cons, Bool.and_eq_true] at h ⊢
    refine ⟨?_, ih h.2⟩
    have h1 := h.1
    simp only [entryComplete, Bool.and_eq_true] at h1
    exact h1.1.1.2

theorem all_created_at_of_ok2 :
    ∀ l : List Feed, l.all entryOk2 = true →
      l.all (fun f => f.created_at.isSome) = true := by
  intro l
  induction l with
  | nil => intro _; rfl
  | cons f rest ih =>
    intro h
    rw [List.all_cons, Bool.and_eq_true] at h ⊢
    refine ⟨?_, ih h.2⟩
    have h1 := h.1
    simp only [entryOk2, Bool.and_eq_true] at h1
    exact h1.1

theorem processFeeds_complete (nmT nmH : String) :
    ∀ (l : List Feed) (tD hD : ThingSpeakFeedData_t) (w : List Nat),
      l.all entryComplete = true →
      hD.numDataPoints = tD.numDataPoints →
      ∃ tD' hD' w',
        processFeeds (some nmT) (some nmH) l tD hD w = .ok (tD', hD', w') ∧
        tD'.numDataPoints = tD.numDataPoints + l.length ∧
        hD'.numDataPoints = hD.numDataPoints + l.length ∧
        (∀ j, j < tD.numDataPoints → tD'.xAxisData j = tD.xAxisData j) ∧
        (∀ j, j < hD.numDataPoints → hD'.xAxisData j = hD.xAxisData j) ∧
        (∀ j, tD.numDataPoints ≤ j → j < tD'.numDataPoints → tD'.xAxisData j = j) ∧
        (∀ j, hD.numDataPoints ≤ j → j < hD'.numDataPoints → hD'.xAxisData j = j) := by
  intro l
  induction l with
  | nil =>
    intro tD hD w _ hcnt
    exact ⟨tD, hD, w, rfl, by simp, by simp, fun j _ => rfl, fun j _ => rfl,
           fun j h1 h2 => absurd h1 (by omega), fun j h1 h2 => absurd h1 (by omega)⟩
  | cons f rest ih =>
    intro tD hD w hall hcnt
    rw [List.all_cons, Bool.and_eq_true] at hall
    obtain ⟨hf, hrest⟩ := hall
    rcases f with ⟨eid, ca, f1, f2⟩
    cases eid with
    | none => simp [entryComplete] at hf
    | some eid =>
    cases ca with
    | none => simp [entryComplete] at hf
    | some ca =>
    cases f1 with
    | none => simp [entryComplete] at hf
    | some v1 =>
    cases f2 with
    | none => simp [entryComplete] at hf
    | some v2 =>
    simp only [entryComplete, Bool.and_eq_true, Option.isSome_some] at hf
    obtain ⟨⟨_, hs1⟩, hs2⟩ := hf
    cases hy1 : stof v1 with
    | none => rw [hy1] at hs1; simp at hs1
    | some y1 =>
    cases hy2 : stof v2 with
    | none => rw [hy2] at hs2; simp at hs2
    | some y2 =>
    simp only [processFeeds, processEntry, hy1, hy2]
    obtain ⟨tD', hD', w', heq, hnt, hnh, hpt, hph, hxt, hxh⟩ :=
      ih { tD with fieldName := nmT,
                   entryId := arrWrite tD.entryId tD.numDataPoints eid,
                   timestamp := arrWrite tD.timestamp tD.numDataPoints ca,
                   xAxisData := arrWrite tD.xAxisData tD.numDataPoints tD.numDataPoints,
                   yAxisData := arrWrite tD.yAxisData tD.numDataPoints y1,
                   numDataPoints := tD.numDataPoints + 1 }
         { hD with fieldName := nmH,
                   entryId := arrWrite hD.entryId hD.numDataPoints eid,
                   timestamp := arrWrite hD.timestamp hD.numDataPoints ca,
                   xAxisData := arrWrite hD.xAxisData hD.numDataPoints hD.numDataPoints,
                   yAxisData := arrWrite hD.yAxisData hD.numDataPoints y2,
                   numDataPoints := hD.numDataPoints + 1 }
         (w ++ [tD.numDataPoints] ++ [tD.numDataPoints, tD.numDataPoints] ++ [tD.numDataPoints]
            ++ [hD.numDataPoints] ++ [hD.numDataPoints, hD.numDataPoints] ++ [hD.numDataPoints])
         hrest (by simp [hcnt])
    refine ⟨tD', hD', w', ?_, ?_, ?_, ?_, ?_, ?_, ?_⟩
    · exact heq
    · simp only [List.length_cons]; simp at hnt; omega
    · simp only [List.length_cons]; simp at hnh; omega
    · intro j hj
      have h2 := hpt j (by simp; omega)
      rw [h2]
      have hne : j ≠ tD.numDataPoints := by omega
      simp [arrWrite, hne]
    · intro j hj
      have h2 := hph j (by simp; omega)
      rw [h2]
      have hne : j ≠ hD.numDataPoints := by omega
      simp [arrWrite, hne]
    · intro j hj1 hj2
      rcases Nat.eq_or_lt_of_le hj1 with h | h
      · have h2 := hpt j (by simp; omega)
        rw [h2]
        have hj' : j = tD.numDataPoints := h.symm
        subst hj'
        simp [arrWrite]
      · exact hxt j (by simp; omega) hj2
    · intro j hj1 hj2
      rcases Nat.eq_or_lt_of_le hj1 with h | h
      · have h2 := hph j (by simp; omega)
        rw [h2]
        have hj' : j = hD.numDataPoints := h.symm
        subst hj'
        simp [arrWrite]
      · exact hxh j (by simp; omega) hj2

theorem processFeeds_ok2 (nmT nmH : String) :
    ∀ (l : List Feed) (tD hD : ThingSpeakFeedData_t) (w : List Nat),
      l.all entryOk2 = true →
      ∃ tD' hD' w',
        processFeeds (some nmT) (some nmH) l tD hD w = .ok (tD', hD', w') ∧
        tD'.numDataPoints = tD.numDataPoints + l.countP (fun f => f.field1.isSome) ∧
        hD'.numDataPoints =
          hD.numDataPoints + l.countP (fun f => f.field1.isSome && f.field2.isSome) := by
  intro l
  induction l with
  | nil =>
    intro tD hD w _
    exact ⟨tD, hD, w, rfl, by simp, by simp⟩
  | cons f rest ih =>
    intro tD hD w hall
    rw [List.all_cons, Bool.and_eq_true] at hall
    obtain ⟨hf, hrest⟩ := hall
    rcases f with ⟨eid, ca, f1, f2⟩
    cases ca with
    | none => simp [entryOk2] at hf
    | some ca =>
    cases f1 with
    | none =>
      simp only [processFeeds, processEntry]
      obtain ⟨tD', hD', w', heq, hnt, hnh⟩ := ih tD hD w hrest
      exact ⟨tD', hD', w', heq, by simpa using hnt, by simpa using hnh⟩
    | some v1 =>
    simp only [entryOk2, Bool.and_eq_true] at hf
    obtain ⟨_, hf⟩ := hf
    cases eid with
    | none => simp at hf
    | some eid =>
    obtain ⟨⟨_, hs1⟩, hf2⟩ := hf
    cases hy1 : stof v1 with
    | none => rw [hy1] at hs1; simp at hs1
    | some y1 =>
    cases f2 with
    | none =>
      simp only [processFeeds, processEntry, hy1]
      obtain ⟨tD', hD', w', heq, hnt, hnh⟩ :=
        ih { tD with fieldName := nmT,
                     entryId := arrWrite tD.entryId tD.numDataPoints eid,
                     timestamp := arrWrite tD.timestamp tD.numDataPoints ca,
                     xAxisData := arrWrite tD.xAxisData tD.numDataPoints tD.numDataPoints,
                     yAxisData := arrWrite tD.yAxisData tD.numDataPoints y1,
                     numDataPoints := tD.numDataPoints + 1 }
           hD
           (w ++ [tD.numDataPoints] ++ [tD.numDataPoints, tD.numDataPoints] ++ [tD.numDataPoints])
           hrest
      refine ⟨tD', hD', w', heq, ?_, ?_⟩
      · simp only [List.countP_cons]; simp at hnt ⊢; omega
      · simp only [List.countP_cons]; simp at hnh ⊢; omega
    | some v2 =>
    cases hy2 : stof v2 with
    | none => simp [hy2] at hf2
    | some y2 =>
    simp only [processFeeds, processEntry, hy1, hy2]
    obtain ⟨tD', hD', w', heq, hnt, hnh⟩ :=
      ih { tD with fieldName := nmT,
                   entryId := arrWrite tD.entryId tD.numDataPoints eid,
                   timestamp := arrWrite tD.timestamp tD.numDataPoints ca,
                   xAxisData := arrWrite tD.xAxisData tD.numDataPoints tD.numDataPoints,
                   yAxisData := arrWrite tD.yAxisData tD.numDataPoints y1,
                   numDataPoints := tD.numDataPoints + 1 }
         { hD with fieldName := nmH,
                   entryId := arrWrite hD.entryId hD.numDataPoints eid,
                   timestamp := arrWrite hD.timestamp hD.numDataPoints ca,
                   xAxisData := arrWrite hD.xAxisData hD.numDataPoints hD.numDataPoints,
                   yAxisData := arrWrite hD.yAxisData hD.numDataPoints y2,
                   numDataPoints := hD.numDataPoints + 1 }
         (w ++ [tD.numDataPoints] ++ [tD.numDataPoints, tD.numDataPoints] ++ [tD.numDataPoints]
            ++ [hD.numDataPoints] ++ [hD.numDataPoints, hD.numDataPoints] ++ [hD.numDataPoints])
         hrest
    refine ⟨tD', hD', w', heq, ?_, ?_⟩
    · simp only [List.countP_cons]; simp at hnt ⊢; omega
    · simp only [List.countP_cons]; simp at hnh ⊢; omega

theorem processFeeds_append (chT chH : Option String) :
    ∀ (l1 l2 : List Feed) (tD hD : ThingSpeakFeedData_t) (w : List Nat),
      processFeeds chT chH (l1 ++ l2) tD hD w =
        match processFeeds chT chH l1 tD hD w with
        | .ok (a, b, c) => processFeeds chT chH l2 a b c
        | .error e => .error e := by
  intro l1
  induction l1 with
  | nil => intro l2 tD hD w; rfl
  | cons f rest ih =>
    intro l2 tD hD w
    simp only [List.cons_append, processFeeds]
    cases processEntry chT chH f tD hD w with
    | ok a => rcases a with ⟨a, b, c⟩; exact ih l2 a b c
    | error e => rfl

/-- Both outcomes of the loop: the final state on normal completion, or
the partially mutated state an escaping exception leaves behind. -/
def exOut {α : Type} : Except α α → α
  | .ok a => a
  | .error a => a
theorem processEntry_bound (chT chH : Option String) (f : Feed)
    (tD hD : ThingSpeakFeedData_t) (w : List Nat) :
    (exOut (processEntry chT chH f tD hD w)).1.numDataPoints ≤ tD.numDataPoints + 1 ∧
    (exOut (processEntry chT chH f tD hD w)).2.1.numDataPoints ≤ hD.numDataPoints + 1 ∧
    (hD.numDataPoints ≤ tD.numDataPoints →
      (exOut (processEntry chT chH f tD hD w)).2.1.numDataPoints ≤
        (exOut (processEntry chT chH f tD hD w)).1.numDataPoints) ∧
    (∀ i ∈ (exOut (processEntry chT chH f tD hD w)).2.2,
      i ∈ w ∨ i = tD.numDataPoints ∨ i = hD.numDataPoints) := by
  unfold processEntry
  repeat' split
  all_goals
    exact ⟨by simp [exOut] <;> omega, by simp [exOut] <;> omega,
           fun hmono => by simp [exOut] <;> omega,
           fun i hi => by
             first
             | exact Or.inl hi
             | (simp [exOut] at hi; tauto)⟩

theorem processFeeds_bound (chT chH : Option String) :
    ∀ (l : List Feed) (tD hD : ThingSpeakFeedData_t) (w : List Nat),
      hD.numDataPoints ≤ tD.numDataPoints →
      (exOut (processFeeds chT chH l tD hD w)).1.numDataPoints ≤ tD.numDataPoints + l.length ∧
      (exOut (processFeeds chT chH l tD hD w)).2.1.numDataPoints ≤ tD.numDataPoints + l.length ∧
      (∀ i ∈ (exOut (processFeeds chT chH l tD hD w)).2.2,
        i ∈ w ∨ i < tD.numDataPoints + l.length) := by
  intro l
  induction l with
  | nil =>
    intro tD hD w hmono
    refine ⟨by simp [processFeeds, exOut], by simp [processFeeds, exOut]; omega, ?_⟩
    intro i hi
    exact Or.inl (by simpa [processFeeds, exOut] using hi)
  | cons f rest ih =>
    intro tD hD w hmono
    obtain ⟨hb1, hb2, hb3, hb4⟩ := processEntry_bound chT chH f tD hD w
    simp only [processFeeds]
    cases hpe : processEntry chT chH f tD hD w with
    | ok a =>
      rcases a with ⟨a, b, c⟩
      rw [hpe] at hb1 hb2 hb3 hb4
      simp only [exOut] at hb1 hb2 hb3 hb4
      obtain ⟨h1, h2, h3⟩ := ih a b c (hb3 hmono)
      refine ⟨by simp only [List.length_cons]; omega,
              by simp only [List.length_cons]; omega, ?_⟩
      intro i hi
      rcases h3 i hi with h | h
      · rcases hb4 i h with h' | h' | h'
        · exact Or.inl h'
        · right; simp only [List.length_cons]; omega
        · right; simp only [List.length_cons]; omega
      · right; simp only [List.length_cons] at h ⊢; omega
    | error e =>
      rcases e with ⟨a, b, c⟩
      rw [hpe] at hb1 hb2 hb3 hb4
      simp only [exOut] at hb1 hb2 hb3 hb4
      refine ⟨by simp only [exOut, List.length_cons]; omega,
              by simp only [exOut, List.length_cons]; omega, ?_⟩
      intro i hi
      simp only [exOut] at hi
      rcases hb4 i hi with h | h | h
      · exact Or.inl h
      · right; simp only [List.length_cons]; omega
      · right; simp only [List.length_cons]; omega

/-! ### Concrete fixtures used by witnesses and counterexamples -/

def zeroFeedData : ThingSpeakFeedData_t :=
  { fieldName := "", numDataPoints := 0, entryId := fun _ => 0,
    xAxisData := fun _ => 0, yAxisData := fun _ => 0, timestamp := fun _ => "" }

def tsObj : ThingSpeak :=
  { objectName := "garage", thingSpeakKey := "KEY", thingSpeakChannel := "123",
    temperatureData := zeroFeedData, humidityData := zeroFeedData }

def chanObj : ChannelObj := { field1 := some "Temperature", field2 := some "Humidity" }

def feedFull : Feed :=
  { entry_id := some 1, created_at := some "2024-12-24T07:10:39Z",
    field1 := some "72.5", field2 := some "51.0" }

def feedNoTemp : Feed :=
  { entry_id := some 2, created_at := some "2024-12-24T07:20:39Z",
    field1 := none, field2 := some "52.0" }

def feedNoHum : Feed :=
  { entry_id := some 3, created_at := some "2024-12-24T07:30:39Z",
    field1 := some "73.5", field2 := none }

def feedBadTemp : Feed :=
  { entry_id := some 4, created_at := some "2024-12-24T07:40:39Z",
    field1 := some "abc", field2 := some "50.0" }

def pFull : PayloadJson := { channel := some chanObj, feeds := some [feedFull, feedFull] }

/-- C4: a refresh whose HTTP status is not 200 makes `GetFieldData`
return a negative value (-1) and leaves the whole stored `ThingSpeak`
object — both series with their field names, counts, entry ids,
timestamps, x and y values — completely unchanged. -/
theorem c4_failed_refresh_keeps_series (ts : ThingSpeak) (resp : HttpResponse) (ds : Bool)
    (h : resp.status ≠ 200) :
    ∃ r : Int, r < 0 ∧ GetFieldData ts resp ds = (ts, .ok r) := by
  refine ⟨-1, by omega, ?_⟩
  simp [GetFieldData, GetFieldDataW, GetChannelData, h]

/-- Witness for C4 at a concrete 404 response. -/
theorem c4_failed_refresh_keeps_series_witness :
    ∃ r : Int, r < 0 ∧ GetFieldData tsObj ⟨404, .json pFull⟩ false = (tsObj, .ok r) :=
  c4_failed_refresh_keeps_series tsObj ⟨404, .json pFull⟩ false (by decide)

/-- C10: a 200 response with valid JSON whose "feeds" array is empty is a
*successful* refresh (`GetFieldData` returns 0) that resets both series
to zero data points, discarding all previously stored points. -/
theorem c10_empty_feeds_resets_series (ts : ThingSpeak) (ds : Bool) (p : PayloadJson)
    (hf : p.feeds = some []) :
    GetFieldData ts ⟨200, .json p⟩ ds =
      ({ ts with temperatureData := { ts.temperatureData with numDataPoints := 0 },
                 humidityData := { ts.humidityData with numDataPoints := 0 } }, .ok 0) := by
  simp [GetFieldData, GetFieldDataW, GetChannelData, hf, convertFeeds, processFeeds]

/-- Witness for C10 on a concrete payload with an empty feeds array. -/
theorem c10_empty_feeds_resets_series_witness :
    GetFieldData tsObj ⟨200, .json ⟨some chanObj, some []⟩⟩ false =
      ({ tsObj with temperatureData := { tsObj.temperatureData with numDataPoints := 0 },
                    humidityData := { tsObj.humidityData with numDataPoints := 0 } }, .ok 0) :=
  c10_empty_feeds_resets_series tsObj false ⟨some chanObj, some []⟩ rfl

/-- C6 counterexample: a 200 response whose parsed JSON has no top-level
"feeds" key does NOT fail with a ParseError — `GetFieldData` returns 0
(success); the missing key merely makes the loop iterate zero times
after both series counts were reset. -/
theorem c6_counterexample :
    (GetFieldData tsObj ⟨200, .json ⟨some chanObj, none⟩⟩ false).2 = .ok 0 := rfl

/-- C6 amended: a 200 body that `json::parse` cannot parse raises an
uncaught exception (the refresh terminates exceptionally, the stored
series still untouched); a parsed body without a "feeds" key, or with an
empty "feeds" array, is treated as a *successful* refresh that resets
both series to empty — no ParseError exists for the missing
"feeds"/"channel" keys. -/
theorem c6_amended_parse_failures (ts : ThingSpeak) (ds : Bool) :
    GetFieldData ts ⟨200, .malformed⟩ ds = (ts, .error ()) ∧
    (∀ p : PayloadJson, p.feeds = none →
      GetFieldData ts ⟨200, .json p⟩ ds =
        ({ ts with temperatureData := { ts.temperatureData with numDataPoints := 0 },
                   humidityData := { ts.humidityData with numDataPoints := 0 } }, .ok 0)) ∧
    (∀ p : PayloadJson, p.feeds = some [] →
      GetFieldData ts ⟨200, .json p⟩ ds =
        ({ ts with temperatureData := { ts.temperatureData with numDataPoints := 0 },
                   humidityData := { ts.humidityData with numDataPoints := 0 } }, .ok 0)) := by
  refine ⟨?_, ?_, ?_⟩
  · simp [GetFieldData, GetFieldDataW, GetChannelData]
  · intro p hf
    simp [GetFieldData, GetFieldDataW, GetChannelData, hf, processFeeds]
  · intro p hf
    simp [GetFieldData, GetFieldDataW, GetChannelData, hf, convertFeeds, processFeeds]

/-- Witness for C6 amended: the malformed-body and missing-feeds cases at
a concrete object. -/
theorem c6_amended_parse_failures_witness :
    GetFieldData tsObj ⟨200, .malformed⟩ false = (tsObj, .error ()) ∧
    GetFieldData tsObj ⟨200, .json ⟨none, none⟩⟩ false =
      ({ tsObj with temperatureData := { tsObj.temperatureData with numDataPoints := 0 },
                    humidityData := { tsObj.humidityData with numDataPoints := 0 } }, .ok 0) :=
  ⟨(c6_amended_parse_failures tsObj false).1,
   (c6_amended_parse_failures tsObj false).2.1 ⟨none, none⟩ rfl⟩

/-- C5 counterexample: HTTP status 201 (a 2xx success status) is treated
as a *failure*: `GetChannelData` returns the NULL json and logs the
transport error, because the code compares the status against 200
exactly. -/
theorem c5_counterexample :
    (GetChannelData tsObj MAX_THINGSPEAK_REQUEST_SIZE ⟨201, .json pFull⟩ false).1 =
      ChanResult.null ∧
    (GetChannelData tsObj MAX_THINGSPEAK_REQUEST_SIZE ⟨201, .json pFull⟩ false).2 =
      [LogMsg.httpError (BuildThingSpeakHttpGetUrl tsObj MAX_THINGSPEAK_REQUEST_SIZE) 201] :=
  ⟨rfl, rfl⟩

/-- C5 amended: the fetch fails — NULL json returned, diagnostic line
carrying the response status code emitted — exactly when the status
differs from 200; only the exact status 200 is treated as success
(201/202/204 and every other 2xx status are failures). -/
theorem c5_amended_success_is_exactly_200 (ts : ThingSpeak) (n : Nat)
    (resp : HttpResponse) (ds : Bool) :
    (resp.status ≠ 200 →
      GetChannelData ts n resp ds =
        (.null, [.httpError (BuildThingSpeakHttpGetUrl ts n) resp.status])) ∧
    (resp.status = 200 →
      (GetChannelData ts n resp ds).1 ≠ ChanResult.null ∧
      (GetChannelData ts n resp ds).2 = [.success (BuildThingSpeakHttpGetUrl ts n)]) := by
  constructor
  · intro h
    simp [GetChannelData, h]
  · intro h
    rcases resp with ⟨st, body⟩
    simp only at h
    subst h
    cases body with
    | malformed => simp [GetChannelData]
    | json p =>
      cases hf : p.feeds with
      | none => simp [GetChannelData, hf]
      | some l =>
        cases hc : convertFeeds ds l with
        | none => simp [GetChannelData, hf, hc]
        | some l2 => simp [GetChannelData, hf, hc]

/-- Witness for C5 amended: 404 fails with the logged status; 200
succeeds. -/
theorem c5_amended_success_is_exactly_200_witness :
    GetChannelData tsObj 100 ⟨404, .json pFull⟩ false =
      (.null, [.httpError (BuildThingSpeakHttpGetUrl tsObj 100) 404]) ∧
    (GetChannelData tsObj 100 ⟨200, .json pFull⟩ false).1 ≠ ChanResult.null :=
  ⟨(c5_amended_success_is_exactly_200 tsObj 100 ⟨404, .json pFull⟩ false).1 (by decide),
   ((c5_amended_success_is_exactly_200 tsObj 100 ⟨200, .json pFull⟩ false).2 rfl).1⟩

/-- C9 counterexample: a manual "Refresh Data" press at steady-clock
time 50 with the deadline stored at 100 triggers a fetch, but the
deadline is NOT reset to completion time + interval — it stays 100. -/
theorem c9_counterexample :
    (frameStep ⟨100⟩ true 50 0).2 = 1 ∧
    (frameStep ⟨100⟩ true 50 0).1.pollingDelay = 100 ∧
    (100 : Int) ≠ 50 + 0 + POLLING_INTERVAL_SECS := by
  refine ⟨rfl, rfl, by decide⟩

/-- C9 amended: a fetch is triggered exactly when the manual button is
pressed or the current time strictly exceeds the stored deadline, but
only the *periodic* fetch resets the deadline to its completion time
plus the fixed 5-minute interval; a manual fetch leaves the deadline
unchanged. -/
theorem c9_amended_deadline_reset (st : SchedState) (b : Bool) (now e : Int) :
    ((frameStep st b now e).2 > 0 ↔ (b = true ∨ now > st.pollingDelay)) ∧
    (frameStep st b now e).1.pollingDelay =
      (if now > st.pollingDelay then now + e + POLLING_INTERVAL_SECS
       else st.pollingDelay) := by
  cases b <;> simp [frameStep] <;> split <;> simp <;> omega

theorem all_entryComplete_map (ds : Bool) (l : List Feed) :
    (l.map (convFeed ds)).all entryComplete = l.all entryComplete := by
  rw [List.all_map]
  have h : (entryComplete ∘ convFeed ds) = entryComplete :=
    funext (fun f => entryComplete_convFeed ds f)
  rw [h]

theorem all_entryOk2_map (ds : Bool) (l : List Feed) :
    (l.map (convFeed ds)).all entryOk2 = l.all entryOk2 := by
  rw [List.all_map]
  have h : (entryOk2 ∘ convFeed ds) = entryOk2 :=
    funext (fun f => entryOk2_convFeed ds f)
  rw [h]

/-- C8: for a well-formed UTC timestamp string, the conversion is the
epoch shift by `GetPstTimeOffset` hours (−8 without daylight saving, −7
with it) re-rendered as "YYYY-MM-DD HH:MM:SS"; in particular
"2024-12-24T07:10:39Z" with the non-DST −8h offset becomes
"2024-12-23 23:10:39" (rolling back across midnight into the previous
day). -/
theorem c8_utc_to_pst (s : String) (ds : Bool) (dt : DateTime)
    (hp : parseUtcDateTime s = some dt) :
    ConvertUtcDateTimeToPstDateTime s ds =
      formatPstDateTime
        (epochSecsToDateTime (dateTimeToEpochSecs dt + GetPstTimeOffset ds * 3600)) ∧
    GetPstTimeOffset false = -8 ∧ GetPstTimeOffset true = -7 ∧
    ConvertUtcDateTimeToPstDateTime "2024-12-24T07:10:39Z" false = "2024-12-23 23:10:39" ∧
    ConvertUtcDateTimeToPstDateTime "2024-12-24T07:10:39Z" true = "2024-12-24 00:10:39" := by
  refine ⟨?_, rfl, rfl, by decide, by decide⟩
  simp [ConvertUtcDateTimeToPstDateTime, hp]

/-- Witness for C8 at the round-trip timestamp of the specification. -/
theorem c8_utc_to_pst_witness :
    ConvertUtcDateTimeToPstDateTime "2024-12-24T07:10:39Z" false = "2024-12-23 23:10:39" :=
  (c8_utc_to_pst "2024-12-24T07:10:39Z" false
    { year := 2024, month := 12, day := 24, hour := 7, minute := 10, second := 39 }
    (by rfl)).2.2.2.1

/-- C1: for a successful fetch whose payload has N feed entries, each
with both the temperature field ("field1") and the humidity field
("field2") present and numeric (and with readable `entry_id` /
`created_at` and channel field names, without which the fetch would
throw instead of succeeding), `GetFieldData` returns 0, both series have
length exactly N, and the stored x-axis values are exactly
0, 1, ..., N-1 in order. -/
theorem c1_series_length_and_x_indices (ts : ThingSpeak) (ds : Bool)
    (p : PayloadJson) (l : List Feed) (nmT nmH : String)
    (hfeeds : p.feeds = some l)
    (hchT : p.channel.bind ChannelObj.field1 = some nmT)
    (hchH : p.channel.bind ChannelObj.field2 = some nmH)
    (hall : l.all entryComplete = true) :
    ∃ ts', GetFieldData ts ⟨200, .json p⟩ ds = (ts', .ok 0) ∧
      ts'.temperatureData.numDataPoints = l.length ∧
      ts'.humidityData.numDataPoints = l.length ∧
      (∀ j, j < l.length → ts'.temperatureData.xAxisData j = j) ∧
      (∀ j, j < l.length → ts'.humidityData.xAxisData j = j) := by
  have hca := all_created_at_of_complete l hall
  have hconv := convertFeeds_eq_map ds l hca
  have hall2 : (l.map (convFeed ds)).all entryComplete = true := by
    rw [all_entryComplete_map]; exact hall
  obtain ⟨tD', hD', w', heq, hnt, hnh, hpt, hph, hxt, hxh⟩ :=
    processFeeds_complete nmT nmH (l.map (convFeed ds))
      { ts.temperatureData with numDataPoints := 0 }
      { ts.humidityData with numDataPoints := 0 } [] hall2 (by simp)
  simp only [List.length_map] at hnt hnh
  refine ⟨{ ts with temperatureData := tD', humidityData := hD' }, ?_, ?_, ?_, ?_, ?_⟩
  · simp only [GetFieldData, GetFieldDataW, GetChannelData, hfeeds, hconv]
    simp [hchT, hchH, heq]
  · simpa using hnt
  · simpa using hnh
  · intro j hj
    exact hxt j (by simp) (by simp at hnt ⊢; omega)
  · intro j hj
    exact hxh j (by simp) (by simp at hnh ⊢; omega)

/-- Witness for C1: two fully-populated entries give series of length 2
with x-axis values 0 and 1. -/
theorem c1_series_length_and_x_indices_witness :
    (GetFieldData tsObj ⟨200, .json pFull⟩ false).2 = .ok 0 ∧
    (GetFieldData tsObj ⟨200, .json pFull⟩ false).1.temperatureData.numDataPoints = 2 ∧
    (GetFieldData tsObj ⟨200, .json pFull⟩ false).1.humidityData.numDataPoints = 2 ∧
    (GetFieldData tsObj ⟨200, .json pFull⟩ false).1.humidityData.xAxisData 1 = 1 := by
  obtain ⟨ts', heq, hnt, hnh, hxt, hxh⟩ :=
    c1_series_length_and_x_indices tsObj false pFull [feedFull, feedFull]
      "Temperature" "Humidity" rfl rfl rfl (by decide)
  rw [heq]
  exact ⟨rfl, by simpa using hnt, by simpa using hnh, by simpa using hxh 1 (by simp)⟩

/-- C2 counterexample: an entry whose temperature field is null but
whose humidity field is present and numeric is excluded from the
humidity series as well — the `continue` on the null temperature skips
the humidity half of the loop body — so the humidity series stays
empty although the claim requires it to contain the entry. -/
theorem c2_counterexample :
    feedNoTemp.field2.isSome = true ∧
    (GetFieldData tsObj ⟨200, .json ⟨some chanObj, some [feedNoTemp]⟩⟩ false).2 = .ok 0 ∧
    (GetFieldData tsObj
        ⟨200, .json ⟨some chanObj, some [feedNoTemp]⟩⟩ false).1.humidityData.numDataPoints
      = 0 := ⟨rfl, rfl, rfl⟩

/-- C2 amended: the temperature series excludes exactly the entries
whose "field1" is null/missing; the humidity series contains exactly the
entries in which *both* "field1" and "field2" are present — an entry
with a null temperature is skipped entirely (`continue`), dropping its
humidity value too, so humidity inclusion is not independent of the
temperature field. -/
theorem c2_amended_skip_counts (ts : ThingSpeak) (ds : Bool)
    (p : PayloadJson) (l : List Feed) (nmT nmH : String)
    (hfeeds : p.feeds = some l)
    (hchT : p.channel.bind ChannelObj.field1 = some nmT)
    (hchH : p.channel.bind ChannelObj.field2 = some nmH)
    (hall : l.all entryOk2 = true) :
    ∃ ts', GetFieldData ts ⟨200, .json p⟩ ds = (ts', .ok 0) ∧
      ts'.temperatureData.numDataPoints = l.countP (fun f => f.field1.isSome) ∧
      ts'.humidityData.numDataPoints =
        l.countP (fun f => f.field1.isSome && f.field2.isSome) := by
  have hca := all_created_at_of_ok2 l hall
  have hconv := convertFeeds_eq_map ds l hca
  have hall2 : (l.map (convFeed ds)).all entryOk2 = true := by
    rw [all_entryOk2_map]; exact hall
  obtain ⟨tD', hD', w', heq, hnt, hnh⟩ :=
    processFeeds_ok2 nmT nmH (l.map (convFeed ds))
      { ts.temperatureData with numDataPoints := 0 }
      { ts.humidityData with numDataPoints := 0 } [] hall2
  rw [List.countP_map] at hnt hnh
  have hc1 : ((fun f => f.field1.isSome) ∘ convFeed ds) =
      (fun f : Feed => f.field1.isSome) := rfl
  have hc2 : ((fun f => f.field1.isSome && f.field2.isSome) ∘ convFeed ds) =
      (fun f : Feed => f.field1.isSome && f.field2.isSome) := rfl
  rw [hc1] at hnt
  rw [hc2] at hnh
  refine ⟨{ ts with temperatureData := tD', humidityData := hD' }, ?_, ?_, ?_⟩
  · simp only [GetFieldData, GetFieldDataW, GetChannelData, hfeeds, hconv]
    simp [hchT, hchH, heq]
  · simpa using hnt
  · simpa using hnh

/-- Witness for C2 amended: of three entries — complete, temperature
missing, humidity missing — the temperature series keeps two and the
humidity series keeps one. -/
theorem c2_amended_skip_counts_witness :
    (GetFieldData tsObj
        ⟨200, .json ⟨some chanObj, some [feedFull, feedNoTemp, feedNoHum]⟩⟩ false).2 = .ok 0 ∧
    (GetFieldData tsObj
        ⟨200, .json ⟨some chanObj, some [feedFull, feedNoTemp, feedNoHum]⟩⟩
        false).1.temperatureData.numDataPoints = 2 ∧
    (GetFieldData tsObj
        ⟨200, .json ⟨some chanObj, some [feedFull, feedNoTemp, feedNoHum]⟩⟩
        false).1.humidityData.numDataPoints = 1 := by
  obtain ⟨ts', heq, hnt, hnh⟩ :=
    c2_amended_skip_counts tsObj false ⟨some chanObj, some [feedFull, feedNoTemp, feedNoHum]⟩
      [feedFull, feedNoTemp, feedNoHum] "Temperature" "Humidity" rfl rfl rfl (by decide)
  rw [heq]
  exact ⟨rfl, by rw [hnt]; decide, by rw [hnh]; decide⟩

theorem processFeeds_bad_entry (nmT nmH : String) (pre rest : List Feed) (bad : Feed)
    (v ca : String) (eid : Int)
    (hpre : pre.all entryComplete = true)
    (heid : bad.entry_id = some eid) (hbca : bad.created_at = some ca)
    (hv : bad.field1 = some v) (hstof : stof v = none)
    (tD hD : ThingSpeakFeedData_t) (w : List Nat)
    (hcnt : hD.numDataPoints = tD.numDataPoints) :
    ∃ tD' hD' w',
      processFeeds (some nmT) (some nmH) (pre ++ bad :: rest) tD hD w = .error (tD', hD', w') ∧
      tD'.numDataPoints = tD.numDataPoints + pre.length ∧
      hD'.numDataPoints = hD.numDataPoints + pre.length := by
  obtain ⟨tD1, hD1, w1, heq1, hnt1, hnh1, _, _, _, _⟩ :=
    processFeeds_complete nmT nmH pre tD hD w hpre hcnt
  rw [processFeeds_append, heq1]
  simp only [processFeeds, processEntry, hv, heid, hbca, hstof]
  exact ⟨_, _, _, rfl, by simpa using hnt1, by simpa using hnh1⟩

/-- C3 counterexample: an entry whose temperature value is present but
not numeric makes `std::stof` throw `std::invalid_argument`; nothing
catches it, so the refresh terminates exceptionally instead of logging
and skipping the entry. -/
theorem c3_counterexample :
    (GetFieldData tsObj ⟨200, .json ⟨some chanObj, some [feedBadTemp]⟩⟩ false).2 =
      .error () := rfl

/-- C3 amended: a feed entry whose requested field value is present but
fails numeric coercion makes the refresh as a whole fail — the uncaught
`std::stof` exception escapes `GetFieldData` — leaving both series
holding exactly the entries processed before the bad one (in particular
the x and y arrays stay length-matched at that common count); the bad
entry is not logged-and-skipped. -/
theorem c3_amended_nonnumeric_throws (ts : ThingSpeak) (ds : Bool)
    (p : PayloadJson) (pre rest : List Feed) (bad : Feed) (nmT nmH v : String)
    (hfeeds : p.feeds = some (pre ++ bad :: rest))
    (hchT : p.channel.bind ChannelObj.field1 = some nmT)
    (hchH : p.channel.bind ChannelObj.field2 = some nmH)
    (hpre : pre.all entryComplete = true)
    (heid : bad.entry_id.isSome = true)
    (hbca : bad.created_at.isSome = true)
    (hv : bad.field1 = some v) (hstof : stof v = none)
    (hrest : rest.all (fun f => f.created_at.isSome) = true) :
    ∃ ts', GetFieldData ts ⟨200, .json p⟩ ds = (ts', .error ()) ∧
      ts'.temperatureData.numDataPoints = pre.length ∧
      ts'.humidityData.numDataPoints = pre.length := by
  obtain ⟨eid, heid2⟩ := Option.isSome_iff_exists.mp heid
  obtain ⟨ca, hca2⟩ := Option.isSome_iff_exists.mp hbca
  have hca_all : (pre ++ bad :: rest).all (fun f => f.created_at.isSome) = true := by
    rw [List.all_append, List.all_cons]
    simp [all_created_at_of_complete pre hpre, hca2, hrest]
  have hconv := convertFeeds_eq_map ds (pre ++ bad :: rest) hca_all
  obtain ⟨tD', hD', w', heq, hnt, hnh⟩ :=
    processFeeds_bad_entry nmT nmH (pre.map (convFeed ds)) (rest.map (convFeed ds))
      (convFeed ds bad) v (ConvertUtcDateTimeToPstDateTime ca ds) eid
      (by rw [all_entryComplete_map]; exact hpre)
      (by simp [convFeed, heid2]) (by simp [convFeed, hca2]) (by simp [convFeed, hv]) hstof
      { ts.temperatureData with numDataPoints := 0 }
      { ts.humidityData with numDataPoints := 0 } [] (by simp)
  refine ⟨{ ts with temperatureData := tD', humidityData := hD' }, ?_, ?_, ?_⟩
  · simp only [GetFieldData, GetFieldDataW, GetChannelData, hfeeds, hconv,
      List.map_append, List.map_cons]
    simp [hchT, hchH, heq]
  · simpa using hnt
  · simpa using hnh

/-- Witness for C3 amended: one good entry followed by a non-numeric
temperature entry — the refresh fails exceptionally with both series
left at length 1. -/
theorem c3_amended_nonnumeric_throws_witness :
    (GetFieldData tsObj ⟨200, .json ⟨some chanObj, some [feedFull, feedBadTemp]⟩⟩ false).2 =
      .error () ∧
    (GetFieldData tsObj
        ⟨200, .json ⟨some chanObj, some [feedFull, feedBadTemp]⟩⟩
        false).1.temperatureData.numDataPoints = 1 ∧
    (GetFieldData tsObj
        ⟨200, .json ⟨some chanObj, some [feedFull, feedBadTemp]⟩⟩
        false).1.humidityData.numDataPoints = 1 := by
  obtain ⟨ts', heq, hnt, hnh⟩ :=
    c3_amended_nonnumeric_throws tsObj false ⟨some chanObj, some [feedFull, feedBadTemp]⟩
      [feedFull] [] feedBadTemp "Temperature" "Humidity" "abc"
      rfl rfl rfl (by decide) rfl rfl rfl (by decide) rfl
  rw [heq]
  exact ⟨rfl, by simpa using hnt, by simpa using hnh⟩

def manyFeeds : List Feed := List.replicate 101 feedFull

set_option maxRecDepth 100000 in
set_option maxHeartbeats 1000000 in
/-- C7 counterexample: a payload whose "feeds" array holds 101 entries —
one more than the fixed capacity `MAX_THINGSPEAK_REQUEST_SIZE` = 100 —
drives `numDataPoints` to 101 and writes the arrays at index 100, past
the last valid index 99: the loop has no bounds check. -/
theorem c7_counterexample :
    (GetFieldDataW tsObj
        ⟨200, .json ⟨some chanObj, some manyFeeds⟩⟩ false).1.temperatureData.numDataPoints
      = 101 ∧
    ¬ (101 ≤ MAX_THINGSPEAK_REQUEST_SIZE) ∧
    100 ∈ (GetFieldDataW tsObj ⟨200, .json ⟨some chanObj, some manyFeeds⟩⟩ false).2.1 := by
  refine ⟨by decide, by decide, by decide⟩

/-- C7 amended: when the payload's "feeds" array has at most
`MAX_THINGSPEAK_REQUEST_SIZE` (100) entries — as holds for any response
honoring the requested `results=100` cap — every refresh outcome leaves
both series with at most 100 points and every array write of the
refresh lands at an index below 100; payloads larger than the capacity
overrun the arrays (see the counterexample). -/
theorem c7_amended_bounded_by_capacity (ts : ThingSpeak) (ds : Bool)
    (p : PayloadJson) (l : List Feed)
    (hfeeds : p.feeds = some l)
    (hlen : l.length ≤ MAX_THINGSPEAK_REQUEST_SIZE)
    (hca : l.all (fun f => f.created_at.isSome) = true) :
    (GetFieldDataW ts ⟨200, .json p⟩ ds).1.temperatureData.numDataPoints ≤
      MAX_THINGSPEAK_REQUEST_SIZE ∧
    (GetFieldDataW ts ⟨200, .json p⟩ ds).1.humidityData.numDataPoints ≤
      MAX_THINGSPEAK_REQUEST_SIZE ∧
    ∀ i ∈ (GetFieldDataW ts ⟨200, .json p⟩ ds).2.1, i < MAX_THINGSPEAK_REQUEST_SIZE := by
  have hconv := convertFeeds_eq_map ds l hca
  obtain ⟨h1, h2, h3⟩ :=
    processFeeds_bound (p.channel.bind ChannelObj.field1) (p.channel.bind ChannelObj.field2)
      (l.map (convFeed ds))
      { ts.temperatureData with numDataPoints := 0 }
      { ts.humidityData with numDataPoints := 0 } [] (by simp)
  cases hres : processFeeds (p.channel.bind ChannelObj.field1)
      (p.channel.bind ChannelObj.field2) (l.map (convFeed ds))
      { ts.temperatureData with numDataPoints := 0 }
      { ts.humidityData with numDataPoints := 0 } [] with
  | ok a =>
    rcases a with ⟨a, b, c⟩
    rw [hres] at h1 h2 h3
    simp only [exOut, List.length_map] at h1 h2 h3
    have hrun : GetFieldDataW ts ⟨200, .json p⟩ ds =
        ({ ts with temperatureData := a, humidityData := b }, c, .ok 0) := by
      simp only [GetFieldDataW, GetChannelData, hfeeds, hconv]
      simp [hres]
    rw [hrun]
    refine ⟨by simp; omega, by simp; omega, ?_⟩
    intro i hi
    rcases h3 i hi with h | h
    · simp at h
    · omega
  | error e =>
    rcases e with ⟨a, b, c⟩
    rw [hres] at h1 h2 h3
    simp only [exOut, List.length_map] at h1 h2 h3
    have hrun : GetFieldDataW ts ⟨200, .json p⟩ ds =
        ({ ts with temperatureData := a, humidityData := b }, c, .error ()) := by
      simp only [GetFieldDataW, GetChannelData, hfeeds, hconv]
      simp [hres]
    rw [hrun]
    refine ⟨by simp; omega, by simp; omega, ?_⟩
    intro i hi
    rcases h3 i hi with h | h
    · simp at h
    · omega

/-- Witness for C7 amended at a one-entry payload. -/
theorem c7_amended_bounded_by_capacity_witness :
    (GetFieldDataW tsObj
        ⟨200, .json ⟨some chanObj, some [feedFull]⟩⟩ false).1.temperatureData.numDataPoints ≤
      MAX_THINGSPEAK_REQUEST_SIZE ∧
    (GetFieldDataW tsObj
        ⟨200, .json ⟨some chanObj, some [feedFull]⟩⟩ false).1.humidityData.numDataPoints ≤
      MAX_THINGSPEAK_REQUEST_SIZE ∧
    ∀ i ∈ (GetFieldDataW tsObj ⟨200, .json ⟨some chanObj, some [feedFull]⟩⟩ false).2.1,
      i < MAX_THINGSPEAK_REQUEST_SIZE :=
  c7_amended_bounded_by_capacity tsObj false ⟨some chanObj, some [feedFull]⟩ [feedFull]
    rfl (by decide) (by decide)
